import Mathlib

/-!
Verification development for the optitrack message codec (src/lib.rs).

The Rust code is shallowly embedded as follows.

* A byte buffer (`bytes::BytesMut` cursor) is a `List Nat`, each element a
  byte value.  Integers and floats are kept as their wire bit patterns
  (`Nat`): the codec only moves these values around bitwise, it never does
  arithmetic on them, so bit patterns are a faithful representation.
* A decoder (`Decoder::decode(&mut BytesMut)`) becomes a state-passing
  function `Dec A = List Nat -> DResult A`.  `DResult.ok a rest` models a
  successful return with the cursor advanced, `DResult.err` models
  `Err(...)` (the message text is immaterial), and `DResult.panic` models a
  Rust panic: both the `unimplemented!()` arms and the panics of the bytes
  crate `get_*` methods when fewer bytes remain than requested.
* An encoder (`Encoder::encode(item, &mut BytesMut)`) becomes a pure
  function `A -> List Nat` giving the bytes appended to `dst`; every
  encoder in the source returns `Ok(())` on all paths, so no error arm is
  needed.
* `glam::Quat::normalize` is floating-point; its numeric content is not
  modelled.  Every decoder that calls it takes an explicit parameter
  `norm : Quat32 -> Quat32` standing for it, so the byte-level theorems
  hold for the real normalization function.  Closed theorems instantiate
  it with `normProbe`, a concrete function that agrees with the real
  `normalize` at the single probe value used (bit patterns of
  (0,0,0,2.0) mapsto (0,0,0,1.0)).
* `String::from_utf8` becomes the standard UTF-8 validity check `isUtf8`
  on the raw name bytes; decoded names are kept as byte lists.
-/

/-- Result of running a decoder on a buffer: success with the remaining
bytes, a returned `Err`, or a Rust panic. -/
inductive DResult (α : Type) : Type where
  | ok : α → List Nat → DResult α
  | err : DResult α
  | panic : DResult α
deriving DecidableEq, Repr

/-- A decoder: consumes a prefix of the buffer. -/
def Dec (α : Type) : Type := List Nat → DResult α

def Dec.bind {α β : Type} (m : Dec α) (f : α → Dec β) : Dec β := fun s =>
  match m s with
  | .ok a s' => f a s'
  | .err => .err
  | .panic => .panic

def Dec.pure {α : Type} (a : α) : Dec α := fun s => .ok a s

instance : Monad Dec where
  pure := Dec.pure
  bind := Dec.bind

/-- Little-endian byte encoding of the low `k` bytes of `n`
(`to_le_bytes` of a `k`-byte integer). -/
def leBytes : Nat → Nat → List Nat
  | 0, _ => []
  | k + 1, n => n % 256 :: leBytes k (n / 256)

/-- Read `k` bytes little-endian (models the bytes crate `get_*_le`
methods, which panic when fewer than `k` bytes remain). -/
def readLE : Nat → Dec Nat
  | 0 => fun s => .ok 0 s
  | k + 1 => fun s =>
    match s with
    | [] => .panic
    | b :: rest =>
      match readLE k rest with
      | .ok v s' => .ok (b + 256 * v) s'
      | .err => .err
      | .panic => .panic

/-- Read 2 bytes big-endian (models `get_u16`, used only by
`FrameParametersCodec::decode`). -/
def readBE2 : Dec Nat := fun s =>
  match s with
  | b0 :: b1 :: rest => .ok (256 * b0 + b1) rest
  | _ => .panic

/-- Models `BufRead::read_until(0, ..)` on the buffer reader: returns the
bytes up to and including the first zero byte (or the whole buffer when no
zero byte occurs), together with the rest of the buffer. -/
def readUntilNul : List Nat → List Nat × List Nat
  | [] => ([], [])
  | b :: rest =>
    if b = 0 then ([0], rest)
    else
      let p := readUntilNul rest
      (b :: p.1, p.2)

/-- A UTF-8 continuation byte. -/
def contByte (b : Nat) : Bool := decide (128 ≤ b ∧ b ≤ 191)

/-- Standard UTF-8 validity (models `String::from_utf8` succeeding),
rejecting overlong forms, surrogates, and values above U+10FFFF. -/
def isUtf8 : List Nat → Bool
  | [] => true
  | b :: rest =>
    if b < 128 then isUtf8 rest
    else if 194 ≤ b ∧ b ≤ 223 then
      match rest with
      | c :: r => contByte c && isUtf8 r
      | [] => false
    else if b = 224 then
      match rest with
      | c :: d :: r => decide (160 ≤ c ∧ c ≤ 191) && contByte d && isUtf8 r
      | _ => false
    else if (225 ≤ b ∧ b ≤ 236) ∨ (238 ≤ b ∧ b ≤ 239) then
      match rest with
      | c :: d :: r => contByte c && contByte d && isUtf8 r
      | _ => false
    else if b = 237 then
      match rest with
      | c :: d :: r => decide (128 ≤ c ∧ c ≤ 159) && contByte d && isUtf8 r
      | _ => false
    else if b = 240 then
      match rest with
      | c :: d :: e :: r =>
        decide (144 ≤ c ∧ c ≤ 191) && contByte d && contByte e && isUtf8 r
      | _ => false
    else if 241 ≤ b ∧ b ≤ 243 then
      match rest with
      | c :: d :: e :: r => contByte c && contByte d && contByte e && isUtf8 r
      | _ => false
    else if b = 244 then
      match rest with
      | c :: d :: e :: r =>
        decide (128 ≤ c ∧ c ≤ 143) && contByte d && contByte e && isUtf8 r
      | _ => false
    else false

/-- Read a null-terminated name and validate it as UTF-8
(`read_until` followed by `String::from_utf8(..)?`). -/
def readName : Dec (List Nat) := fun s =>
  let p := readUntilNul s
  if isUtf8 p.1 then .ok p.1 p.2 else .err

/-- Decode `n` consecutive elements
(models `(0..n).map(|_| codec.decode(src)).collect::<Result<Vec<_>,_>>()`,
which short-circuits on the first failure). -/
def decodeN {α : Type} (d : Dec α) : Nat → Dec (List α)
  | 0 => Dec.pure []
  | n + 1 =>
    Dec.bind d fun x =>
    Dec.bind (decodeN d n) fun xs =>
    Dec.pure (x :: xs)

/-- Models `decode(src).unwrap_or(default)` for a decoder whose only `Err`
exit is its initial length guard, which consumes no input, so on `Err` the
caller continues from the same cursor position (this is exactly how
`FrameDataCodec::decode` treats `StampsCodec` and `FrameParametersCodec`,
and how `StampsCodec::decode` treats `FrameParametersCodec`). -/
def recoverDefault {α : Type} (d : Dec α) (dflt : α) : Dec α := fun s =>
  match d s with
  | .ok a s' => .ok a s'
  | .err => .ok dflt s
  | .panic => .panic

/- Data model (field names follow the Rust structs; `f32`/`f64` fields hold
wire bit patterns). -/

/-- glam Vec3 with the three `f32` components as bit patterns. -/
structure Vec3f where
  x : Nat
  y : Nat
  z : Nat
deriving DecidableEq, Repr

/-- glam Quat with the four `f32` components as bit patterns. -/
structure Quat32 where
  x : Nat
  y : Nat
  z : Nat
  w : Nat
deriving DecidableEq, Repr

structure MarkerSet where
  name : List Nat
  marker_count : Nat
  positions : List Vec3f
deriving DecidableEq, Repr

structure RigidBody where
  id : Nat
  pos : Vec3f
  rot : Quat32
  is_tracking_valid : Bool
  mean_marker_err : Nat
deriving DecidableEq, Repr

structure RigidBodyAsset where
  id : Nat
  pos : Vec3f
  rot : Quat32
  marker_error : Nat
  param : Nat
deriving DecidableEq, Repr

structure Skeleton where
  id : Nat
  rigid_body_count : Nat
  rigid_bodies : List RigidBody
deriving DecidableEq, Repr

structure Asset where
  id : Nat
  rigid_body_count : Nat
  rigid_bodies : List RigidBodyAsset
deriving DecidableEq, Repr

inductive LabeledMarkerStatus : Type where
  | occluded
  | pointCloudSolved
  | modelSolved
  | unrecognized
deriving DecidableEq, Repr

structure LabeledMarker where
  id : Nat
  pos : Vec3f
  size : Nat
  status : LabeledMarkerStatus
  residual : Nat
deriving DecidableEq, Repr

structure ForcePlateChannel where
  value_count : Nat
  values : List Nat
deriving DecidableEq, Repr

structure ForcePlate where
  id : Nat
  channel_count : Nat
  channels : List ForcePlateChannel
deriving DecidableEq, Repr

structure DeviceChannel where
  value_count : Nat
  values : List Nat
deriving DecidableEq, Repr

structure Device where
  id : Nat
  channel_count : Nat
  channels : List DeviceChannel
deriving DecidableEq, Repr

inductive FrameParameters : Type where
  | isRecording
  | trackingModelsChanged
  | unrecognized
deriving DecidableEq, Repr

structure Stamps where
  timestamp : Nat
  timestamp_mid : Nat
  timestamp_recv : Nat
  timestamp_tx : Nat
  timestamp_precision : Nat
  timestamp_precision_fraction : Nat
  param : FrameParameters
deriving DecidableEq, Repr

/-- `Stamps::default()`: all-zero timestamps and precisions (the bit
pattern of `0.0_f64` is 0), parameters `Unrecognized`. -/
def stampsDefault : Stamps :=
  { timestamp := 0
    timestamp_mid := 0
    timestamp_recv := 0
    timestamp_tx := 0
    timestamp_precision := 0
    timestamp_precision_fraction := 0
    param := .unrecognized }

structure FrameData where
  packet_size : Nat
  frame_number : Nat
  markerset_count : Nat
  markerset_bytes : Nat
  markersets : List MarkerSet
  unlabeled_marker_count : Nat
  unlabeled_marker_bytes : Nat
  unlabeled_marker_positions : List Vec3f
  rigid_body_count : Nat
  rigid_body_bytes : Nat
  rigid_bodies : List RigidBody
  skeleton_count : Nat
  skeleton_bytes : Nat
  skeletons : List Skeleton
  labeled_marker_count : Nat
  labeled_marker_bytes : Nat
  labeled_marker_positions : List LabeledMarker
  asset_count : Nat
  asset_bytes : Nat
  assets : List Asset
  force_plate_count : Nat
  force_plate_bytes : Nat
  force_plates : List ForcePlate
  device_count : Nat
  device_bytes : Nat
  devices : List Device
  timecode : Nat
  timecode_sub : Nat
  stamps : Stamps
  frame_parameters : FrameParameters
deriving DecidableEq, Repr

structure MarkerSetDesc where
  name : List Nat
  marker_count : Nat
  marker_names : List (List Nat)
deriving DecidableEq, Repr

structure RigidBodyDesc where
  name : List Nat
  id : Nat
  parent_id : Nat
  pos : Vec3f
  marker_count : Nat
  marker_offsets : List Vec3f
  marker_active_labels : List Nat
  marker_names : List (List Nat)
deriving DecidableEq, Repr

structure CameraDesc where
  name : List Nat
  pos : Vec3f
  rot : Quat32
deriving DecidableEq, Repr

inductive ModelDefData : Type where
  | markerSetDesc (size : Nat) (data : MarkerSetDesc)
  | rigidBodyDesc (size : Nat) (data : RigidBodyDesc)
  | skeletonDesc
  | forcePlateDesc
  | deviceDesc
  | cameraDesc (size : Nat) (data : CameraDesc)
  | assetDesc
  | unknown
deriving DecidableEq, Repr

structure ModelDef where
  packet_size : Nat
  dataset_count : Nat
  dataset : List ModelDefData
deriving DecidableEq, Repr

inductive MessageId : Type where
  | ping
  | pingResponse
  | request
  | response
  | requestModelDef
  | modelDef
  | requestFrameData
  | frameData
  | messageString
  | disconnect
  | keepAlive
  | disconnectByTimeout
  | echoRequest
  | echoResponse
  | discovery
  | unrecognized
deriving DecidableEq, Repr

/-- `impl From<u16> for MessageId`. -/
def MessageId.fromU16 : Nat → MessageId
  | 0 => .ping
  | 1 => .pingResponse
  | 2 => .request
  | 3 => .response
  | 4 => .requestModelDef
  | 5 => .modelDef
  | 6 => .requestFrameData
  | 7 => .frameData
  | 8 => .messageString
  | 9 => .disconnect
  | 10 => .keepAlive
  | 11 => .disconnectByTimeout
  | 12 => .echoRequest
  | 13 => .echoResponse
  | 14 => .discovery
  | _ => .unrecognized

inductive Message : Type where
  | pingResponse
  | frameData (data : FrameData)
  | modelDef (data : ModelDef)
  | unknown
deriving DecidableEq, Repr

/- Primitive field decoders shared by the entity codecs. -/

/-- Three `f32` little-endian reads building a `Vec3` (used inline all
over the source). -/
def getVec3 : Dec Vec3f := do
  let x ← readLE 4
  let y ← readLE 4
  let z ← readLE 4
  Dec.pure { x, y, z }

/-- Four `f32` little-endian reads building a `Quat::from_xyzw`, before
any normalization. -/
def getQuatRaw : Dec Quat32 := do
  let x ← readLE 4
  let y ← readLE 4
  let z ← readLE 4
  let w ← readLE 4
  Dec.pure { x, y, z, w }

/-- `(0..count)` where `count` is the bit pattern of an `i32`: a negative
count (high bit set) gives an empty range. -/
def i32LoopCount (w : Nat) : Nat := if w < 2147483648 then w else 0

/- Entity codecs, one definition per Rust `Decoder`/`Encoder` impl. -/

/-- Per-component `to_le_bytes` of a `Vec3`. -/
def Vec3f.encodeLE (v : Vec3f) : List Nat :=
  leBytes 4 v.x ++ leBytes 4 v.y ++ leBytes 4 v.z

/-- Per-component `to_le_bytes` of a `Quat` in x,y,z,w order. -/
def Quat32.encodeLE (q : Quat32) : List Nat :=
  leBytes 4 q.x ++ leBytes 4 q.y ++ leBytes 4 q.z ++ leBytes 4 q.w

/-- `QuatCodec::decode`: four LE floats, then `.normalize()`. -/
def QuatCodec.decode (norm : Quat32 → Quat32) : Dec Quat32 := do
  let q ← getQuatRaw
  Dec.pure (norm q)

/-- `MarkerSetCodec::decode`: null-terminated UTF-8 name (terminator
included in the returned buffer by `read_until`), then a guard requiring
16 further bytes, then `u32` count and that many positions. -/
def MarkerSetCodec.decode : Dec MarkerSet :=
  Dec.bind readName fun name => fun s1 =>
    if s1.length < 16 then .err
    else
      (do
        let marker_count ← readLE 4
        let positions ← decodeN getVec3 marker_count
        Dec.pure ({ name, marker_count, positions } : MarkerSet)) s1

/-- `MarkerSetCodec::encode`: name bytes, a null terminator, the declared
count when it disagrees with the actual list length (else the length cast
to `u32`), then the positions. -/
def MarkerSetCodec.encode (item : MarkerSet) : List Nat :=
  item.name ++ [0] ++
  (if item.marker_count ≠ item.positions.length % 2 ^ 32 then
    leBytes 4 item.marker_count
  else
    leBytes 4 (item.positions.length % 2 ^ 32)) ++
  (item.positions.map Vec3f.encodeLE).flatten

/-- `RigidBodyCodec::decode`: a 32-byte guard, then `u32` id, position,
normalized rotation, mean marker error, and a `u16` whose low bit is the
tracking-valid flag: 38 bytes are consumed in total. -/
def RigidBodyCodec.decode (norm : Quat32 → Quat32) : Dec RigidBody := fun s =>
  if s.length < 32 then .err
  else
    (do
      let id ← readLE 4
      let pos ← getVec3
      let raw ← getQuatRaw
      let mean_marker_err ← readLE 4
      let flags ← readLE 2
      Dec.pure
        ({ id
           pos
           rot := norm raw
           is_tracking_valid := decide (flags % 2 = 1)
           mean_marker_err } : RigidBody)) s

/-- `RigidBodyCodec::encode`: id, position, rotation, mean marker error —
the source writes no tracking-flags word, so the output is 36 bytes. -/
def RigidBodyCodec.encode (item : RigidBody) : List Nat :=
  leBytes 4 item.id ++ item.pos.encodeLE ++ item.rot.encodeLE ++
  leBytes 4 item.mean_marker_err

/-- `RigidBodyAssetCodec::decode`: a 38-byte guard, then id, position,
normalized rotation, marker error, and an `i16` param. -/
def RigidBodyAssetCodec.decode (norm : Quat32 → Quat32) :
    Dec RigidBodyAsset := fun s =>
  if s.length < 38 then .err
  else
    (do
      let id ← readLE 4
      let pos ← getVec3
      let raw ← getQuatRaw
      let marker_error ← readLE 4
      let param ← readLE 2
      Dec.pure ({ id, pos, rot := norm raw, marker_error, param } : RigidBodyAsset)) s

/-- `SkeletonCodec::decode`: an 8-byte guard, id, `u32` count, then that
many rigid bodies. -/
def SkeletonCodec.decode (norm : Quat32 → Quat32) : Dec Skeleton := fun s =>
  if s.length < 8 then .err
  else
    (do
      let id ← readLE 4
      let rigid_body_count ← readLE 4
      let rigid_bodies ← decodeN (RigidBodyCodec.decode norm) rigid_body_count
      Dec.pure ({ id, rigid_body_count, rigid_bodies } : Skeleton)) s

/-- `SkeletonCodec::encode`: the declared count when it disagrees with the
list length (else the length), then the rigid bodies; the id is not
written by the source. -/
def SkeletonCodec.encode (item : Skeleton) : List Nat :=
  (if item.rigid_body_count ≠ item.rigid_bodies.length % 2 ^ 32 then
    leBytes 4 item.rigid_body_count
  else
    leBytes 4 (item.rigid_bodies.length % 2 ^ 32)) ++
  (item.rigid_bodies.map RigidBodyCodec.encode).flatten

/-- `AssetCodec::decode`: an 8-byte guard, id, count, then that many
rigid-body assets. -/
def AssetCodec.decode (norm : Quat32 → Quat32) : Dec Asset := fun s =>
  if s.length < 8 then .err
  else
    (do
      let id ← readLE 4
      let rigid_body_count ← readLE 4
      let rigid_bodies ←
        decodeN (RigidBodyAssetCodec.decode norm) rigid_body_count
      Dec.pure ({ id, rigid_body_count, rigid_bodies } : Asset)) s

/-- `LabeledMarkerCodec::decode`: a 26-byte guard, id, position, size, a
`u16` status word (1, 2, 4 recognized, everything else `Unrecognized`),
and a residual. -/
def LabeledMarkerCodec.decode : Dec LabeledMarker := fun s =>
  if s.length < 26 then .err
  else
    (do
      let id ← readLE 4
      let pos ← getVec3
      let size ← readLE 4
      let statusWord ← readLE 2
      let residual ← readLE 4
      Dec.pure
        ({ id
           pos
           size
           status :=
             match statusWord with
             | 1 => .occluded
             | 2 => .pointCloudSolved
             | 4 => .modelSolved
             | _ => .unrecognized
           residual } : LabeledMarker)) s

/-- `LabeledMarkerCodec::encode`: id, position, size, status word — the
residual is not written by the source. -/
def LabeledMarkerCodec.encode (item : LabeledMarker) : List Nat :=
  leBytes 4 item.id ++ item.pos.encodeLE ++ leBytes 4 item.size ++
  (match item.status with
  | .occluded => leBytes 2 1
  | .pointCloudSolved => leBytes 2 2
  | .modelSolved => leBytes 2 4
  | .unrecognized => leBytes 2 0)

/-- `ForcePlateChannelCodec::decode`: a 4-byte guard, `u32` value count,
then that many `u32` values. -/
def ForcePlateChannelCodec.decode : Dec ForcePlateChannel := fun s =>
  if s.length < 4 then .err
  else
    (do
      let value_count ← readLE 4
      let values ← decodeN (readLE 4) value_count
      Dec.pure ({ value_count, values } : ForcePlateChannel)) s

def ForcePlateChannelCodec.encode (item : ForcePlateChannel) : List Nat :=
  leBytes 4 item.value_count ++ (item.values.map (leBytes 4)).flatten

/-- `ForcePlateCodec::decode`: an 8-byte guard, id, channel count, then
that many channels. -/
def ForcePlateCodec.decode : Dec ForcePlate := fun s =>
  if s.length < 8 then .err
  else
    (do
      let id ← readLE 4
      let channel_count ← readLE 4
      let channels ← decodeN ForcePlateChannelCodec.decode channel_count
      Dec.pure ({ id, channel_count, channels } : ForcePlate)) s

def ForcePlateCodec.encode (item : ForcePlate) : List Nat :=
  leBytes 4 item.id ++ leBytes 4 item.channel_count ++
  (item.channels.map ForcePlateChannelCodec.encode).flatten

/-- `DeviceChannelCodec::decode`: an 8-byte guard (a count plus at least
one value), `u32` value count, then that many `u32` values. -/
def DeviceChannelCodec.decode : Dec DeviceChannel := fun s =>
  if s.length < 8 then .err
  else
    (do
      let value_count ← readLE 4
      let values ← decodeN (readLE 4) value_count
      Dec.pure ({ value_count, values } : DeviceChannel)) s

def DeviceChannelCodec.encode (item : DeviceChannel) : List Nat :=
  leBytes 4 item.value_count ++ (item.values.map (leBytes 4)).flatten

/-- `DeviceCodec::decode`: an 8-byte guard, id, channel count, then that
many channels. -/
def DeviceCodec.decode : Dec Device := fun s =>
  if s.length < 8 then .err
  else
    (do
      let id ← readLE 4
      let channel_count ← readLE 4
      let channels ← decodeN DeviceChannelCodec.decode channel_count
      Dec.pure ({ id, channel_count, channels } : Device)) s

def DeviceCodec.encode (item : Device) : List Nat :=
  leBytes 4 item.id ++ leBytes 4 item.channel_count ++
  (item.channels.map DeviceChannelCodec.encode).flatten

/-- `FrameParametersCodec::decode`: a 2-byte guard, then `get_u16`
(big-endian in the bytes crate; every other integer read in the source
uses a `_le` method) mapped 1, 2, else `Unrecognized`. -/
def FrameParametersCodec.decode : Dec FrameParameters := fun s =>
  if s.length < 2 then .err
  else
    (Dec.bind readBE2 fun w =>
      Dec.pure
        (match w with
        | 1 => FrameParameters.isRecording
        | 2 => FrameParameters.trackingModelsChanged
        | _ => FrameParameters.unrecognized)) s

/-- `FrameParametersCodec::encode`: `1u16`/`2u16`/`0u16` written with
`to_le_bytes`. -/
def FrameParametersCodec.encode : FrameParameters → List Nat
  | .isRecording => leBytes 2 1
  | .trackingModelsChanged => leBytes 2 2
  | .unrecognized => leBytes 2 0

/-- `StampsCodec::decode`: a 42-byte guard, four `f64` timestamps, two
`i32` precision fields, then the nested `FrameParameters` with its `Err`
(never reached once the guard passed) falling back to `Unrecognized`. -/
def StampsCodec.decode : Dec Stamps := fun s =>
  if s.length < 42 then .err
  else
    (do
      let timestamp ← readLE 8
      let timestamp_mid ← readLE 8
      let timestamp_recv ← readLE 8
      let timestamp_tx ← readLE 8
      let timestamp_precision ← readLE 4
      let timestamp_precision_fraction ← readLE 4
      let param ← recoverDefault FrameParametersCodec.decode .unrecognized
      Dec.pure
        ({ timestamp
           timestamp_mid
           timestamp_recv
           timestamp_tx
           timestamp_precision
           timestamp_precision_fraction
           param } : Stamps)) s

def StampsCodec.encode (item : Stamps) : List Nat :=
  leBytes 8 item.timestamp ++ leBytes 8 item.timestamp_mid ++
  leBytes 8 item.timestamp_recv ++ leBytes 8 item.timestamp_tx ++
  leBytes 4 item.timestamp_precision ++
  leBytes 4 item.timestamp_precision_fraction ++
  FrameParametersCodec.encode item.param

/-- The fixed part of `FrameDataCodec::decode` up to and including
`timecode_sub`: every count/bytes pair and counted section, in source
order.  The trailing `stamps` and `frame_parameters` fields are filled
with the defaults here and overwritten by `FrameDataCodec.decode`, which
is the composition of this function with the tail handling. -/
def FrameDataCodec.decodeHead (norm : Quat32 → Quat32) : Dec FrameData := do
  let packet_size ← readLE 2
  let frame_number ← readLE 4
  let markerset_count ← readLE 4
  let markerset_bytes ← readLE 4
  let markersets ← decodeN MarkerSetCodec.decode markerset_count
  let unlabeled_marker_count ← readLE 4
  let unlabeled_marker_bytes ← readLE 4
  let unlabeled_marker_positions ← decodeN getVec3 unlabeled_marker_count
  let rigid_body_count ← readLE 4
  let rigid_body_bytes ← readLE 4
  let rigid_bodies ← decodeN (RigidBodyCodec.decode norm) rigid_body_count
  let skeleton_count ← readLE 4
  let skeleton_bytes ← readLE 4
  let skeletons ← decodeN (SkeletonCodec.decode norm) skeleton_count
  let asset_count ← readLE 4
  let asset_bytes ← readLE 4
  let assets ← decodeN (AssetCodec.decode norm) asset_count
  let labeled_marker_count ← readLE 4
  let labeled_marker_bytes ← readLE 4
  let labeled_marker_positions ←
    decodeN LabeledMarkerCodec.decode labeled_marker_count
  let force_plate_count ← readLE 4
  let force_plate_bytes ← readLE 4
  let force_plates ← decodeN ForcePlateCodec.decode force_plate_count
  let device_count ← readLE 4
  let device_bytes ← readLE 4
  let devices ← decodeN DeviceCodec.decode device_count
  let timecode ← readLE 4
  let timecode_sub ← readLE 4
  Dec.pure
    { packet_size
      frame_number
      markerset_count
      markerset_bytes
      markersets
      unlabeled_marker_count
      unlabeled_marker_bytes
      unlabeled_marker_positions
      rigid_body_count
      rigid_body_bytes
      rigid_bodies
      skeleton_count
      skeleton_bytes
      skeletons
      labeled_marker_count
      labeled_marker_bytes
      labeled_marker_positions
      asset_count
      asset_bytes
      assets
      force_plate_count
      force_plate_bytes
      force_plates
      device_count
      device_bytes
      devices
      timecode
      timecode_sub
      stamps := stampsDefault
      frame_parameters := .unrecognized }

/-- `FrameDataCodec::decode`: the fixed head, then
`stamps_codec.decode(src).unwrap_or_default()` and
`frame_parameters_codec.decode(src).unwrap_or(Unrecognized)`.  Both inner
decoders can only return `Err` from their initial length guard, before
consuming any bytes, so the fallback continues from the same cursor. -/
def FrameDataCodec.decode (norm : Quat32 → Quat32) : Dec FrameData :=
  Dec.bind (FrameDataCodec.decodeHead norm) fun d =>
  Dec.bind (recoverDefault StampsCodec.decode stampsDefault) fun st =>
  Dec.bind (recoverDefault FrameParametersCodec.decode .unrecognized) fun fp =>
  Dec.pure { d with stamps := st, frame_parameters := fp }

/-- `FrameDataCodec::encode`: packet size, frame number, then for each
section the count field followed by the elements — the source writes none
of the per-section byte-size fields and never serializes the asset
section — then timecode, timecode_sub, stamps, frame parameters. -/
def FrameDataCodec.encode (item : FrameData) : List Nat :=
  leBytes 2 item.packet_size ++
  leBytes 4 item.frame_number ++
  leBytes 4 item.markerset_count ++
  (item.markersets.map MarkerSetCodec.encode).flatten ++
  leBytes 4 item.unlabeled_marker_count ++
  (item.unlabeled_marker_positions.map Vec3f.encodeLE).flatten ++
  leBytes 4 item.rigid_body_count ++
  (item.rigid_bodies.map RigidBodyCodec.encode).flatten ++
  leBytes 4 item.skeleton_count ++
  (item.skeletons.map SkeletonCodec.encode).flatten ++
  leBytes 4 item.labeled_marker_count ++
  (item.labeled_marker_positions.map LabeledMarkerCodec.encode).flatten ++
  leBytes 4 item.force_plate_count ++
  (item.force_plates.map ForcePlateCodec.encode).flatten ++
  leBytes 4 item.device_count ++
  (item.devices.map DeviceCodec.encode).flatten ++
  leBytes 4 item.timecode ++
  leBytes 4 item.timecode_sub ++
  StampsCodec.encode item.stamps ++
  FrameParametersCodec.encode item.frame_parameters

/-- `MarkerSetDescCodec::decode`: null-terminated UTF-8 name, a guard
requiring 16 further bytes, an `i32` marker count, then that many
null-terminated marker names (none when the count is negative). -/
def MarkerSetDescCodec.decode : Dec MarkerSetDesc :=
  Dec.bind readName fun name => fun s1 =>
    if s1.length < 16 then .err
    else
      (do
        let marker_count ← readLE 4
        let marker_names ← decodeN readName (i32LoopCount marker_count)
        Dec.pure ({ name, marker_count, marker_names } : MarkerSetDesc)) s1

/-- `MarkerSetDescCodec::encode`: name bytes plus a null terminator, the
declared count when it disagrees with the list length (else the length
cast to `i32`), then the marker-name byte strings as stored. -/
def MarkerSetDescCodec.encode (item : MarkerSetDesc) : List Nat :=
  item.name ++ [0] ++
  (if item.marker_count ≠ item.marker_names.length % 2 ^ 32 then
    leBytes 4 item.marker_count
  else
    leBytes 4 (item.marker_names.length % 2 ^ 32)) ++
  item.marker_names.flatten

/-- `RigidBodyDescCodec::decode`: null-terminated UTF-8 name (no length
guard anywhere), `i32` id and parent id, position, `i32` marker count,
then per-marker offsets, active labels, and names. -/
def RigidBodyDescCodec.decode : Dec RigidBodyDesc :=
  Dec.bind readName fun name => do
    let id ← readLE 4
    let parent_id ← readLE 4
    let pos ← getVec3
    let marker_count ← readLE 4
    let marker_offsets ← decodeN getVec3 (i32LoopCount marker_count)
    let marker_active_labels ← decodeN (readLE 4) (i32LoopCount marker_count)
    let marker_names ← decodeN readName (i32LoopCount marker_count)
    Dec.pure
      ({ name
         id
         parent_id
         pos
         marker_count
         marker_offsets
         marker_active_labels
         marker_names } : RigidBodyDesc)

/-- `RigidBodyDescCodec::encode`: name bytes with no added terminator,
ids, position, declared marker count, then — as in the source — each
marker offset written as x,x,x, each active label written three times,
and each marker name written three times. -/
def RigidBodyDescCodec.encode (item : RigidBodyDesc) : List Nat :=
  item.name ++
  leBytes 4 item.id ++
  leBytes 4 item.parent_id ++
  item.pos.encodeLE ++
  leBytes 4 item.marker_count ++
  (item.marker_offsets.map fun m =>
    leBytes 4 m.x ++ leBytes 4 m.x ++ leBytes 4 m.x).flatten ++
  (item.marker_active_labels.map fun m =>
    leBytes 4 m ++ leBytes 4 m ++ leBytes 4 m).flatten ++
  (item.marker_names.map fun m => m ++ m ++ m).flatten

/-- `CameraDescCodec::decode`: null-terminated UTF-8 name, position, then
`Quat::from_xyzw` of four LE floats with no normalization call. -/
def CameraDescCodec.decode : Dec CameraDesc :=
  Dec.bind readName fun name => do
    let pos ← getVec3
    let rot ← getQuatRaw
    Dec.pure ({ name, pos, rot } : CameraDesc)

/-- `CameraDescCodec::encode`: name bytes with no added terminator, then
position and rotation. -/
def CameraDescCodec.encode (item : CameraDesc) : List Nat :=
  item.name ++ item.pos.encodeLE ++ item.rot.encodeLE

/-- The dataset loop of `ModelDefCodec::decode`: each entry is a `u32`
data type and a `u32` size; types 0, 1, 5 decode a descriptor, and every
other type hits `unimplemented!()` and panics. -/
def ModelDefCodec.decodeEntries : Nat → Dec (List ModelDefData)
  | 0 => Dec.pure []
  | n + 1 => do
    let data_type ← readLE 4
    let size ← readLE 4
    let entry ←
      match data_type with
      | 0 => do
        let d ← MarkerSetDescCodec.decode
        Dec.pure (ModelDefData.markerSetDesc size d)
      | 1 => do
        let d ← RigidBodyDescCodec.decode
        Dec.pure (ModelDefData.rigidBodyDesc size d)
      | 5 => do
        let d ← CameraDescCodec.decode
        Dec.pure (ModelDefData.cameraDesc size d)
      | _ => (fun _ => .panic : Dec ModelDefData)
    let rest ← ModelDefCodec.decodeEntries n
    Dec.pure (entry :: rest)

/-- `ModelDefCodec::decode`: packet size, dataset count, then the dataset
entries. -/
def ModelDefCodec.decode : Dec ModelDef := do
  let packet_size ← readLE 2
  let dataset_count ← readLE 4
  let dataset ← ModelDefCodec.decodeEntries dataset_count
  Dec.pure ({ packet_size, dataset_count, dataset } : ModelDef)

/-- `Message::from_bytes`: an explicit 2-byte underflow check returning
`Err`, then the little-endian message id dispatches: `PingResponse` (1),
`FrameData` (7) and `ModelDef` (5) produce payloads; every other id —
recognized or not — falls into the `unimplemented!()` arm and panics. -/
def Message.fromBytes (norm : Quat32 → Quat32) (src : List Nat) :
    DResult Message :=
  if src.length < 2 then .err
  else
    (Dec.bind (readLE 2) fun tag =>
      match MessageId.fromU16 tag with
      | .pingResponse => Dec.pure Message.pingResponse
      | .frameData =>
        Dec.bind (FrameDataCodec.decode norm) fun f =>
          Dec.pure (Message.frameData f)
      | .modelDef =>
        Dec.bind ModelDefCodec.decode fun m =>
          Dec.pure (Message.modelDef m)
      | _ => (fun _ => .panic : Dec Message)) src

/-- A concrete stand-in for `glam::Quat::normalize` used by the closed
theorems.  It agrees with the real floating-point normalize at the one
probe value those theorems evaluate: the bit patterns of (0,0,0,2.0)
(0x40000000 is `2.0_f32`) normalize to the bit patterns of (0,0,0,1.0)
(0x3F800000 is `1.0_f32`); elsewhere it is the identity, which is also
exact for the all-zero-byte unit-free probes that never reach a
normalization call. -/
def normProbe : Quat32 → Quat32 := fun q =>
  if q = { x := 0, y := 0, z := 0, w := 1073741824 } then
    { x := 0, y := 0, z := 0, w := 1065353216 }
  else q

/-- FrameData with every numeric field zero, every collection empty, and
the default tail values (this is also exactly what decoding its own
all-zero encoding reconstructs). -/
def zeroFrame : FrameData :=
  { packet_size := 0
    frame_number := 0
    markerset_count := 0
    markerset_bytes := 0
    markersets := []
    unlabeled_marker_count := 0
    unlabeled_marker_bytes := 0
    unlabeled_marker_positions := []
    rigid_body_count := 0
    rigid_body_bytes := 0
    rigid_bodies := []
    skeleton_count := 0
    skeleton_bytes := 0
    skeletons := []
    labeled_marker_count := 0
    labeled_marker_bytes := 0
    labeled_marker_positions := []
    asset_count := 0
    asset_bytes := 0
    assets := []
    force_plate_count := 0
    force_plate_bytes := 0
    force_plates := []
    device_count := 0
    device_bytes := 0
    devices := []
    timecode := 0
    timecode_sub := 0
    stamps := stampsDefault
    frame_parameters := .unrecognized }

/-- A frame whose declared markerset byte-size field is 7; everything
else is zero or empty. -/
def c6FrameIn : FrameData := { zeroFrame with markerset_bytes := 7 }

/- Helper lemmas about the decoding combinators, shared across claims. -/

@[simp]
theorem Dec.bind_apply {α β : Type} (m : Dec α) (f : α → Dec β)
    (s : List Nat) :
    Dec.bind m f s =
      match m s with
      | .ok a s' => f a s'
      | .err => .err
      | .panic => .panic := rfl

@[simp]
theorem Dec.monadBind_apply {α β : Type} (m : Dec α) (f : α → Dec β)
    (s : List Nat) :
    (m >>= f) s =
      match m s with
      | .ok a s' => f a s'
      | .err => .err
      | .panic => .panic := rfl

@[simp]
theorem Dec.pure_apply {α : Type} (a : α) (s : List Nat) :
    Dec.pure a s = .ok a s := rfl

@[simp]
theorem leBytes_length (k n : Nat) : (leBytes k n).length = k := by
  induction k generalizing n with
  | zero => rfl
  | succ k ih => simp [leBytes, ih]

theorem readLE_leBytes (k n : Nat) (r : List Nat) :
    readLE k (leBytes k n ++ r) = .ok (n % 256 ^ k) r := by
  induction k generalizing n with
  | zero => simp [leBytes, readLE, Nat.mod_one]
  | succ k ih =>
    simp only [leBytes, readLE, List.cons_append, ih]
    have h : 256 ^ (k + 1) = 256 * 256 ^ k := by ring
    rw [h, Nat.mod_mul]

theorem readLE4_le {n : Nat} (r : List Nat) (h : n < 2 ^ 32) :
    readLE 4 (leBytes 4 n ++ r) = .ok n r := by
  have h4 : (256 : Nat) ^ 4 = 2 ^ 32 := by norm_num
  rw [readLE_leBytes, h4, Nat.mod_eq_of_lt h]

theorem readLE2_le {n : Nat} (r : List Nat) (h : n < 2 ^ 16) :
    readLE 2 (leBytes 2 n ++ r) = .ok n r := by
  have h2 : (256 : Nat) ^ 2 = 2 ^ 16 := by norm_num
  rw [readLE_leBytes, h2, Nat.mod_eq_of_lt h]

theorem readLE8_le {n : Nat} (r : List Nat) (h : n < 2 ^ 64) :
    readLE 8 (leBytes 8 n ++ r) = .ok n r := by
  have h8 : (256 : Nat) ^ 8 = 2 ^ 64 := by norm_num
  rw [readLE_leBytes, h8, Nat.mod_eq_of_lt h]

theorem readLE_leBytes_nil (k n : Nat) :
    readLE k (leBytes k n) = .ok (n % 256 ^ k) [] := by
  have h := readLE_leBytes k n []
  simpa using h

theorem readLE_two_nil : readLE 2 ([] : List Nat) = .panic := rfl

@[simp]
theorem decodeN_zero {α : Type} (d : Dec α) (s : List Nat) :
    decodeN d 0 s = .ok [] s := rfl

theorem readUntilNul_append {p : List Nat} (h : 0 ∉ p) (r : List Nat) :
    readUntilNul (p ++ 0 :: r) = (p ++ [0], r) := by
  induction p with
  | nil => simp [readUntilNul]
  | cons b q ih =>
    have hb : b ≠ 0 := by
      intro hb0
      exact h (hb0 ▸ List.mem_cons_self b q)
    have hq : 0 ∉ q := fun hm => h (List.mem_cons_of_mem b hm)
    simp [readUntilNul, hb, ih hq]

theorem readName_append {p : List Nat} (h : 0 ∉ p)
    (hu : isUtf8 (p ++ [0]) = true) (r : List Nat) :
    readName (p ++ 0 :: r) = .ok (p ++ [0]) r := by
  simp [readName, readUntilNul_append h, hu]

theorem getVec3_leBytes {x y z : Nat} (r : List Nat)
    (hx : x < 2 ^ 32) (hy : y < 2 ^ 32) (hz : z < 2 ^ 32) :
    getVec3 (leBytes 4 x ++ leBytes 4 y ++ leBytes 4 z ++ r) =
      .ok { x, y, z } r := by
  simp [getVec3, readLE4_le _ hx, readLE4_le _ hy, readLE4_le _ hz]

theorem getQuatRaw_leBytes {x y z w : Nat} (r : List Nat)
    (hx : x < 2 ^ 32) (hy : y < 2 ^ 32) (hz : z < 2 ^ 32)
    (hw : w < 2 ^ 32) :
    getQuatRaw (leBytes 4 x ++ leBytes 4 y ++ leBytes 4 z ++
        leBytes 4 w ++ r) =
      .ok { x, y, z, w } r := by
  simp [getQuatRaw, readLE4_le _ hx, readLE4_le _ hy, readLE4_le _ hz,
    readLE4_le _ hw]

/-- C1: the claim requires unsupported message tags and ModelDef entry
types to surface as structured results, never crashing.  The code instead
panics: a buffer with the recognized tag 0 (`Ping`) hits the
`unimplemented!()` arm of `Message::from_bytes`, and a ModelDef buffer
whose single dataset entry has `data_type = 2` hits the
`unimplemented!()` arm of `ModelDefCodec::decode`. -/
theorem c1_unsupported_tags_panic :
    Message.fromBytes normProbe [0, 0] = .panic ∧
    Message.fromBytes normProbe
      ([5, 0] ++ leBytes 2 0 ++ leBytes 4 1 ++ leBytes 4 2 ++ leBytes 4 10) =
      .panic := by
  exact ⟨rfl, rfl⟩

/-- C8: the claim says the FrameParameters tag is little-endian in both
directions.  The encoder is little-endian (`1u16.to_le_bytes()` gives
[1,0]) but the decoder uses the big-endian `get_u16`, so the encoded
bytes for IsRecording decode as 256, i.e. Unrecognized, and only [0,1]
decodes as IsRecording: decode(encode IsRecording) is not IsRecording. -/
theorem c8_frameparameters_big_endian_decode :
    FrameParametersCodec.encode .isRecording = [1, 0] ∧
    FrameParametersCodec.decode [1, 0] = .ok .unrecognized [] ∧
    FrameParametersCodec.decode [0, 1] = .ok .isRecording [] ∧
    FrameParametersCodec.decode (FrameParametersCodec.encode .isRecording) =
      .ok .unrecognized [] := by
  exact ⟨rfl, rfl, rfl, rfl⟩

/-- C2: the claim says encode-then-decode of a RigidBody succeeds and
round-trips the non-rotation fields.  In the code,
`RigidBodyCodec::encode` writes only 36 bytes — it never writes the `u16`
tracking-flags word that `decode` reads (and `is_tracking_valid` is never
serialized at all) — while `decode` consumes 38 bytes behind a guard that
only requires 32, so decoding the encoder output reads past the end of
the buffer and panics instead of returning a record.  This holds for
every RigidBody and every normalization function. -/
theorem c2_rigidbody_roundtrip_panics (norm : Quat32 → Quat32)
    (rb : RigidBody) :
    (RigidBodyCodec.encode rb).length = 36 ∧
    RigidBodyCodec.decode norm (RigidBodyCodec.encode rb) = .panic := by
  constructor
  · simp [RigidBodyCodec.encode, Vec3f.encodeLE, Quat32.encodeLE]
  · simp [RigidBodyCodec.decode, RigidBodyCodec.encode, Vec3f.encodeLE,
      Quat32.encodeLE, List.append_assoc, getVec3, getQuatRaw,
      readLE_leBytes, readLE_leBytes_nil, readLE_two_nil]

/-- C4: the dispatcher half of the claim holds — `Message::from_bytes` on
any 1-byte buffer returns the underflow `Err` — but the RigidBody half
fails: `RigidBodyCodec::decode` guards on 32 remaining bytes yet consumes
38, so on a 36-byte buffer it panics in the final `get_u16_le` instead of
returning a typed underflow error. -/
theorem c4_underflow_behavior :
    (∀ b : Nat, Message.fromBytes normProbe [b] = .err) ∧
    RigidBodyCodec.decode normProbe (List.replicate 36 0) = .panic := by
  exact ⟨fun b => rfl, rfl⟩

/-- C5: a FrameData buffer that parses correctly through `timecode_sub`
and ends exactly there decodes successfully: the Stamps guard (42 bytes)
fails on the empty remainder without consuming anything, so
`unwrap_or_default()` substitutes the default Stamps (all-zero timestamps
and precisions, Unrecognized parameters), and the FrameParameters guard
likewise fails, yielding Unrecognized. -/
theorem c5_tail_truncation_defaults (norm : Quat32 → Quat32)
    (s : List Nat) (d : FrameData)
    (h : FrameDataCodec.decodeHead norm s = .ok d []) :
    FrameDataCodec.decode norm s =
      .ok
        { d with
          stamps :=
            { timestamp := 0
              timestamp_mid := 0
              timestamp_recv := 0
              timestamp_tx := 0
              timestamp_precision := 0
              timestamp_precision_fraction := 0
              param := .unrecognized }
          frame_parameters := .unrecognized } [] := by
  simp [FrameDataCodec.decode, h, recoverDefault, StampsCodec.decode,
    FrameParametersCodec.decode, stampsDefault]

/-- C5 witness: the minimal such buffer — 78 zero bytes covering the fixed
head with every count zero — decodes to the all-zero frame with default
tail values. -/
theorem c5_tail_truncation_defaults_witness :
    FrameDataCodec.decode normProbe (List.replicate 78 0) =
      .ok
        { zeroFrame with
          stamps :=
            { timestamp := 0
              timestamp_mid := 0
              timestamp_recv := 0
              timestamp_tx := 0
              timestamp_precision := 0
              timestamp_precision_fraction := 0
              param := .unrecognized }
          frame_parameters := .unrecognized } [] :=
  c5_tail_truncation_defaults normProbe (List.replicate 78 0) zeroFrame rfl

/-- C6 counterexample: the claim says encode writes the per-section
byte-size fields and the asset section where decode reads them.  Encoding
a frame whose `markerset_bytes` is 7 and decoding the result yields
`markerset_bytes = 0`: the encoder never emitted the field (the decoder
read the next count field instead), so the claimed positional agreement
is false at this input. -/
theorem c6_counterexample_bytes_field_lost :
    FrameDataCodec.decode normProbe (FrameDataCodec.encode c6FrameIn) =
      .ok zeroFrame (List.replicate 6 0) ∧
    zeroFrame.markerset_bytes ≠ c6FrameIn.markerset_bytes := by
  exact ⟨rfl, by decide⟩

/-- C6 amended: `FrameDataCodec::encode` emits packet size, frame number,
each section as its count followed by its elements, timecode,
timecode_sub, Stamps, FrameParameters — and nothing else: its output does
not depend on any of the eight per-section byte-size fields nor on the
asset count or the assets, none of which are written, although decode
reads all of them. -/
theorem c6_encode_omits_bytes_fields_and_assets (d : FrameData)
    (v1 v2 v3 v4 v5 v6 v7 v8 v9 : Nat) (a : List Asset) :
    FrameDataCodec.encode
      { d with
        markerset_bytes := v1
        unlabeled_marker_bytes := v2
        rigid_body_bytes := v3
        skeleton_bytes := v4
        asset_count := v5
        asset_bytes := v6
        assets := a
        labeled_marker_bytes := v7
        force_plate_bytes := v8
        device_bytes := v9 } =
    FrameDataCodec.encode d := rfl

/-- C7: encoding a MarkerSet whose declared `marker_count` differs from
its positions length succeeds (the Rust encoder returns `Ok` on every
path, which is why the model is a total function) and writes the declared
count field, not the list length, after the null-terminated name. -/
theorem c7_markerset_declared_count_wins (ms : MarkerSet)
    (_h : ms.marker_count ≠ ms.positions.length) :
    MarkerSetCodec.encode ms =
      ms.name ++ [0] ++ leBytes 4 ms.marker_count ++
        (ms.positions.map Vec3f.encodeLE).flatten := by
  by_cases hc : ms.marker_count = ms.positions.length % 2 ^ 32
  · unfold MarkerSetCodec.encode
    rw [if_neg (not_not_intro hc), ← hc]
  · unfold MarkerSetCodec.encode
    rw [if_pos hc]

/-- C7 witness: a MarkerSet named "M" declaring 5 markers but holding no
positions encodes to the name, the terminator, and the declared count 5. -/
theorem c7_markerset_declared_count_wins_witness :
    (5 : Nat) ≠ ([] : List Vec3f).length ∧
    MarkerSetCodec.encode { name := [77], marker_count := 5, positions := [] } =
      [77] ++ [0] ++ leBytes 4 5 ++
        (([] : List Vec3f).map Vec3f.encodeLE).flatten :=
  ⟨by decide,
    c7_markerset_declared_count_wins
      { name := [77], marker_count := 5, positions := [] } (by decide)⟩

/-- C9 counterexample: the claim says a 4-byte zero count with no further
bytes decodes to an empty collection for MarkerSet and DeviceChannel.  In
the code, `MarkerSetCodec::decode` requires 16 bytes after the name and
`DeviceChannelCodec::decode` requires 8 bytes, so both reject exactly
these buffers with an underflow error. -/
theorem c9_counterexample_exact_zero_count_rejected :
    MarkerSetCodec.decode [65, 0, 0, 0, 0, 0] = .err ∧
    DeviceChannelCodec.decode [0, 0, 0, 0] = .err := by
  exact ⟨rfl, rfl⟩

/-- C9 amended: a declared element count of zero decodes to an empty
collection only when the decoder's fixed minimum-remaining guard is met.
ForcePlateChannel (guard 4) accepts exactly a 4-byte zero count;
Skeleton, Asset, ForcePlate, and Device (guard 8 = id + count) accept
exactly their 8 header bytes with a zero count; MarkerSet requires 16
bytes after its name and DeviceChannel requires 8 bytes, so those two
return an underflow error on a bare zero count, and succeed with empty
collections once 12 (resp. 4) further bytes are present. -/
theorem c9_zero_count_empty_collections :
    (∀ pad : List Nat, 12 ≤ pad.length →
      MarkerSetCodec.decode ([65] ++ [0] ++ leBytes 4 0 ++ pad) =
        .ok { name := [65, 0], marker_count := 0, positions := [] } pad) ∧
    (∀ pad : List Nat, 4 ≤ pad.length →
      DeviceChannelCodec.decode (leBytes 4 0 ++ pad) =
        .ok { value_count := 0, values := [] } pad) ∧
    ForcePlateChannelCodec.decode (leBytes 4 0) =
      .ok { value_count := 0, values := [] } [] ∧
    (∀ norm : Quat32 → Quat32,
      SkeletonCodec.decode norm (leBytes 4 3 ++ leBytes 4 0) =
        .ok { id := 3, rigid_body_count := 0, rigid_bodies := [] } []) ∧
    (∀ norm : Quat32 → Quat32,
      AssetCodec.decode norm (leBytes 4 3 ++ leBytes 4 0) =
        .ok { id := 3, rigid_body_count := 0, rigid_bodies := [] } []) ∧
    ForcePlateCodec.decode (leBytes 4 3 ++ leBytes 4 0) =
      .ok { id := 3, channel_count := 0, channels := [] } [] ∧
    DeviceCodec.decode (leBytes 4 3 ++ leBytes 4 0) =
      .ok { id := 3, channel_count := 0, channels := [] } [] ∧
    MarkerSetCodec.decode ([65] ++ [0] ++ leBytes 4 0) = .err ∧
    DeviceChannelCodec.decode (leBytes 4 0) = .err := by
  refine ⟨?_, ?_, rfl, fun norm => rfl, fun norm => rfl, rfl, rfl, rfl, rfl⟩
  · intro pad hpad
    have hn := readName_append (p := [65]) (by decide) (by decide)
      (leBytes 4 0 ++ pad)
    simp only [List.singleton_append, List.cons_append, List.nil_append] at hn
    simp [MarkerSetCodec.decode, hn,
      readLE4_le _ (by norm_num : (0 : Nat) < 2 ^ 32)]
    omega
  · intro pad hpad
    simp [DeviceChannelCodec.decode,
      readLE4_le _ (by norm_num : (0 : Nat) < 2 ^ 32)]
    omega

/-- C9 witness: with 12 (resp. 4) bytes of padding after the zero count,
MarkerSet and DeviceChannel decode to empty collections, and Skeleton
accepts its exact 8-byte header. -/
theorem c9_zero_count_empty_collections_witness :
    (12 ≤ (List.replicate 12 0 : List Nat).length ∧
      MarkerSetCodec.decode
        ([65] ++ [0] ++ leBytes 4 0 ++ List.replicate 12 0) =
        .ok { name := [65, 0], marker_count := 0, positions := [] }
          (List.replicate 12 0)) ∧
    (4 ≤ (List.replicate 4 0 : List Nat).length ∧
      DeviceChannelCodec.decode (leBytes 4 0 ++ List.replicate 4 0) =
        .ok { value_count := 0, values := [] } (List.replicate 4 0)) ∧
    SkeletonCodec.decode normProbe (leBytes 4 3 ++ leBytes 4 0) =
      .ok { id := 3, rigid_body_count := 0, rigid_bodies := [] } [] :=
  ⟨⟨by decide, c9_zero_count_empty_collections.1 _ (by decide)⟩,
   ⟨by decide, c9_zero_count_empty_collections.2.1 _ (by decide)⟩,
   c9_zero_count_empty_collections.2.2.2.1 normProbe⟩

/-- C3 counterexample: the claim includes `CameraDescCodec::decode` among
the decoders whose rotation is the normalization of the four floats read.
On a buffer whose rotation bytes are (0,0,0,2.0f32) — 1073741824 is the
bit pattern of 2.0 — the decoder returns the raw words unchanged, while
any function agreeing with `glam::Quat::normalize` there (as `normProbe`
does: (0,0,0,2) normalizes to (0,0,0,1), bit pattern 1065353216) maps
them elsewhere, so the returned rotation is not the normalization of the
floats read. -/
theorem c3_counterexample_cameradesc_raw :
    CameraDescCodec.decode
      ([65, 0] ++ List.replicate 12 0 ++ leBytes 4 0 ++ leBytes 4 0 ++
        leBytes 4 0 ++ leBytes 4 1073741824) =
      .ok
        { name := [65, 0]
          pos := { x := 0, y := 0, z := 0 }
          rot := { x := 0, y := 0, z := 0, w := 1073741824 } } [] ∧
    normProbe { x := 0, y := 0, z := 0, w := 1073741824 } ≠
      { x := 0, y := 0, z := 0, w := 1073741824 } := by
  exact ⟨rfl, by decide⟩

/-- C3 amended: the Quat, RigidBody, and RigidBodyAsset decoders return
exactly the normalization of the four little-endian floats read from the
buffer (stated for every normalization function `norm`, hence for the
real one); `CameraDescCodec::decode` alone returns the raw, unnormalized
quaternion. -/
theorem c3_rotation_normalization :
    (∀ (norm : Quat32 → Quat32) (x y z w : Nat) (r : List Nat),
      x < 2 ^ 32 → y < 2 ^ 32 → z < 2 ^ 32 → w < 2 ^ 32 →
      QuatCodec.decode norm
        (leBytes 4 x ++ leBytes 4 y ++ leBytes 4 z ++ leBytes 4 w ++ r) =
        .ok (norm { x, y, z, w }) r) ∧
    (∀ (norm : Quat32 → Quat32) (i px py pz x y z w e fl : Nat)
        (r : List Nat),
      i < 2 ^ 32 → px < 2 ^ 32 → py < 2 ^ 32 → pz < 2 ^ 32 →
      x < 2 ^ 32 → y < 2 ^ 32 → z < 2 ^ 32 → w < 2 ^ 32 →
      e < 2 ^ 32 → fl < 2 ^ 16 →
      RigidBodyCodec.decode norm
        (leBytes 4 i ++ leBytes 4 px ++ leBytes 4 py ++ leBytes 4 pz ++
          leBytes 4 x ++ leBytes 4 y ++ leBytes 4 z ++ leBytes 4 w ++
          leBytes 4 e ++ leBytes 2 fl ++ r) =
        .ok
          { id := i
            pos := { x := px, y := py, z := pz }
            rot := norm { x, y, z, w }
            is_tracking_valid := decide (fl % 2 = 1)
            mean_marker_err := e } r) ∧
    (∀ (norm : Quat32 → Quat32) (i px py pz x y z w e pm : Nat)
        (r : List Nat),
      i < 2 ^ 32 → px < 2 ^ 32 → py < 2 ^ 32 → pz < 2 ^ 32 →
      x < 2 ^ 32 → y < 2 ^ 32 → z < 2 ^ 32 → w < 2 ^ 32 →
      e < 2 ^ 32 → pm < 2 ^ 16 →
      RigidBodyAssetCodec.decode norm
        (leBytes 4 i ++ leBytes 4 px ++ leBytes 4 py ++ leBytes 4 pz ++
          leBytes 4 x ++ leBytes 4 y ++ leBytes 4 z ++ leBytes 4 w ++
          leBytes 4 e ++ leBytes 2 pm ++ r) =
        .ok
          { id := i
            pos := { x := px, y := py, z := pz }
            rot := norm { x, y, z, w }
            marker_error := e
            param := pm } r) ∧
    (∀ (p : List Nat), 0 ∉ p → isUtf8 (p ++ [0]) = true →
      ∀ (px py pz x y z w : Nat) (r : List Nat),
      px < 2 ^ 32 → py < 2 ^ 32 → pz < 2 ^ 32 →
      x < 2 ^ 32 → y < 2 ^ 32 → z < 2 ^ 32 → w < 2 ^ 32 →
      CameraDescCodec.decode
        (p ++ 0 :: (leBytes 4 px ++ leBytes 4 py ++ leBytes 4 pz ++
          leBytes 4 x ++ leBytes 4 y ++ leBytes 4 z ++ leBytes 4 w ++ r)) =
        .ok
          { name := p ++ [0]
            pos := { x := px, y := py, z := pz }
            rot := { x, y, z, w } } r) := by
  refine ⟨?_, ?_, ?_, ?_⟩
  · intro norm x y z w r hx hy hz hw
    simp [QuatCodec.decode, getQuatRaw, readLE4_le _ hx, readLE4_le _ hy,
      readLE4_le _ hz, readLE4_le _ hw]
  · intro norm i px py pz x y z w e fl r hi hpx hpy hpz hx hy hz hw he hfl
    simp [RigidBodyCodec.decode, getVec3, getQuatRaw, readLE4_le _ hi,
      readLE4_le _ hpx, readLE4_le _ hpy, readLE4_le _ hpz,
      readLE4_le _ hx, readLE4_le _ hy, readLE4_le _ hz, readLE4_le _ hw,
      readLE4_le _ he, readLE2_le _ hfl]
    omega
  · intro norm i px py pz x y z w e pm r hi hpx hpy hpz hx hy hz hw he hpm
    simp [RigidBodyAssetCodec.decode, getVec3, getQuatRaw, readLE4_le _ hi,
      readLE4_le _ hpx, readLE4_le _ hpy, readLE4_le _ hpz,
      readLE4_le _ hx, readLE4_le _ hy, readLE4_le _ hz, readLE4_le _ hw,
      readLE4_le _ he, readLE2_le _ hpm]
    omega
  · intro p hp hu px py pz x y z w r hpx hpy hpz hx hy hz hw
    have hn := readName_append hp hu
      (leBytes 4 px ++ leBytes 4 py ++ leBytes 4 pz ++ leBytes 4 x ++
        leBytes 4 y ++ leBytes 4 z ++ leBytes 4 w ++ r)
    simp only [List.append_assoc] at hn
    simp [CameraDescCodec.decode, hn, getVec3, getQuatRaw,
      readLE4_le _ hpx, readLE4_le _ hpy, readLE4_le _ hpz,
      readLE4_le _ hx, readLE4_le _ hy, readLE4_le _ hz, readLE4_le _ hw]

/-- C3 witness: the amended statement instantiated at concrete inputs —
zero position bytes, rotation bytes (0,0,0,2.0f32), flag word 1, and the
representative normalization function. -/
theorem c3_rotation_normalization_witness :
    QuatCodec.decode normProbe
      (leBytes 4 0 ++ leBytes 4 0 ++ leBytes 4 0 ++ leBytes 4 1073741824 ++
        []) =
      .ok (normProbe { x := 0, y := 0, z := 0, w := 1073741824 }) [] ∧
    RigidBodyCodec.decode normProbe
      (leBytes 4 9 ++ leBytes 4 0 ++ leBytes 4 0 ++ leBytes 4 0 ++
        leBytes 4 0 ++ leBytes 4 0 ++ leBytes 4 0 ++ leBytes 4 1073741824 ++
        leBytes 4 0 ++ leBytes 2 1 ++ []) =
      .ok
        { id := 9
          pos := { x := 0, y := 0, z := 0 }
          rot := normProbe { x := 0, y := 0, z := 0, w := 1073741824 }
          is_tracking_valid := decide ((1 : Nat) % 2 = 1)
          mean_marker_err := 0 } [] ∧
    RigidBodyAssetCodec.decode normProbe
      (leBytes 4 9 ++ leBytes 4 0 ++ leBytes 4 0 ++ leBytes 4 0 ++
        leBytes 4 0 ++ leBytes 4 0 ++ leBytes 4 0 ++ leBytes 4 1073741824 ++
        leBytes 4 0 ++ leBytes 2 7 ++ []) =
      .ok
        { id := 9
          pos := { x := 0, y := 0, z := 0 }
          rot := normProbe { x := 0, y := 0, z := 0, w := 1073741824 }
          marker_error := 0
          param := 7 } [] ∧
    CameraDescCodec.decode
      ([65] ++ 0 :: (leBytes 4 0 ++ leBytes 4 0 ++ leBytes 4 0 ++
        leBytes 4 0 ++ leBytes 4 0 ++ leBytes 4 0 ++ leBytes 4 1073741824 ++
        [])) =
      .ok
        { name := [65] ++ [0]
          pos := { x := 0, y := 0, z := 0 }
          rot := { x := 0, y := 0, z := 0, w := 1073741824 } } [] :=
  ⟨c3_rotation_normalization.1 normProbe 0 0 0 1073741824 []
      (by norm_num) (by norm_num) (by norm_num) (by norm_num),
   c3_rotation_normalization.2.1 normProbe 9 0 0 0 0 0 0 1073741824 0 1 []
      (by norm_num) (by norm_num) (by norm_num) (by norm_num) (by norm_num)
      (by norm_num) (by norm_num) (by norm_num) (by norm_num) (by norm_num),
   c3_rotation_normalization.2.2.1 normProbe 9 0 0 0 0 0 0 1073741824 0 7 []
      (by norm_num) (by norm_num) (by norm_num) (by norm_num) (by norm_num)
      (by norm_num) (by norm_num) (by norm_num) (by norm_num) (by norm_num),
   c3_rotation_normalization.2.2.2 [65] (by decide) (by decide)
      0 0 0 0 0 0 1073741824 []
      (by norm_num) (by norm_num) (by norm_num) (by norm_num) (by norm_num)
      (by norm_num) (by norm_num)⟩

/-- C10 counterexample: the claim says every listed encoder appends an
additional 0x00 after the name, so decode-then-encode never reproduces
the original bytes.  `CameraDescCodec::encode` writes the name bytes with
no added terminator: decoding a CameraDesc buffer and re-encoding the
result reproduces the original bytes exactly, terminator included. -/
theorem c10_counterexample_cameradesc_name_reproduced :
    CameraDescCodec.decode ([65, 0] ++ List.replicate 28 0) =
      .ok
        { name := [65, 0]
          pos := { x := 0, y := 0, z := 0 }
          rot := { x := 0, y := 0, z := 0, w := 0 } } [] ∧
    CameraDescCodec.encode
      { name := [65, 0]
        pos := { x := 0, y := 0, z := 0 }
        rot := { x := 0, y := 0, z := 0, w := 0 } } =
      [65, 0] ++ List.replicate 28 0 := by
  exact ⟨rfl, by decide⟩

/-- C10 amended: every decoder that reads a null-terminated inline string
(MarkerSet, MarkerSetDesc, RigidBodyDesc, CameraDesc) keeps the 0x00
terminator as the final byte of the decoded name.  `MarkerSetCodec` and
`MarkerSetDescCodec` encoders append a further 0x00 after the name bytes,
so their decode-then-encode output has a name region one byte longer than
the input; `RigidBodyDescCodec` and `CameraDescCodec` encoders write the
name bytes with no added terminator, so decode-then-encode reproduces the
original buffer exactly. -/
theorem c10_terminator_and_encoders (p : List Nat) (hp : 0 ∉ p)
    (hu : isUtf8 (p ++ [0]) = true) :
    (∀ pad : List Nat, 12 ≤ pad.length →
      MarkerSetCodec.decode (p ++ 0 :: (leBytes 4 0 ++ pad)) =
        .ok { name := p ++ [0], marker_count := 0, positions := [] } pad) ∧
    MarkerSetCodec.encode
      { name := p ++ [0], marker_count := 0, positions := [] } =
      p ++ [0] ++ [0] ++ leBytes 4 0 ∧
    (∀ pad : List Nat, 12 ≤ pad.length →
      MarkerSetDescCodec.decode (p ++ 0 :: (leBytes 4 0 ++ pad)) =
        .ok { name := p ++ [0], marker_count := 0, marker_names := [] }
          pad) ∧
    MarkerSetDescCodec.encode
      { name := p ++ [0], marker_count := 0, marker_names := [] } =
      p ++ [0] ++ [0] ++ leBytes 4 0 ∧
    RigidBodyDescCodec.decode
      (p ++ 0 :: (leBytes 4 0 ++ leBytes 4 0 ++ leBytes 4 0 ++
        leBytes 4 0 ++ leBytes 4 0 ++ leBytes 4 0)) =
      .ok
        { name := p ++ [0]
          id := 0
          parent_id := 0
          pos := { x := 0, y := 0, z := 0 }
          marker_count := 0
          marker_offsets := []
          marker_active_labels := []
          marker_names := [] } [] ∧
    RigidBodyDescCodec.encode
      { name := p ++ [0]
        id := 0
        parent_id := 0
        pos := { x := 0, y := 0, z := 0 }
        marker_count := 0
        marker_offsets := []
        marker_active_labels := []
        marker_names := [] } =
      p ++ 0 :: (leBytes 4 0 ++ leBytes 4 0 ++ leBytes 4 0 ++
        leBytes 4 0 ++ leBytes 4 0 ++ leBytes 4 0) ∧
    CameraDescCodec.decode
      (p ++ 0 :: (leBytes 4 0 ++ leBytes 4 0 ++ leBytes 4 0 ++
        leBytes 4 0 ++ leBytes 4 0 ++ leBytes 4 0 ++ leBytes 4 0)) =
      .ok
        { name := p ++ [0]
          pos := { x := 0, y := 0, z := 0 }
          rot := { x := 0, y := 0, z := 0, w := 0 } } [] ∧
    CameraDescCodec.encode
      { name := p ++ [0]
        pos := { x := 0, y := 0, z := 0 }
        rot := { x := 0, y := 0, z := 0, w := 0 } } =
      p ++ 0 :: (leBytes 4 0 ++ leBytes 4 0 ++ leBytes 4 0 ++
        leBytes 4 0 ++ leBytes 4 0 ++ leBytes 4 0 ++ leBytes 4 0) := by
  refine ⟨?_, ?_, ?_, ?_, ?_, ?_, ?_, ?_⟩
  · intro pad hpad
    have hn := readName_append hp hu (leBytes 4 0 ++ pad)
    simp only [List.append_assoc] at hn
    simp [MarkerSetCodec.decode, hn,
      readLE4_le _ (by norm_num : (0 : Nat) < 2 ^ 32)]
    omega
  · simp [MarkerSetCodec.encode]
  · intro pad hpad
    have hn := readName_append hp hu (leBytes 4 0 ++ pad)
    simp only [List.append_assoc] at hn
    simp [MarkerSetDescCodec.decode, hn, i32LoopCount,
      readLE4_le _ (by norm_num : (0 : Nat) < 2 ^ 32)]
    omega
  · simp [MarkerSetDescCodec.encode]
  · have hn := readName_append hp hu
      (leBytes 4 0 ++ leBytes 4 0 ++ leBytes 4 0 ++ leBytes 4 0 ++
        leBytes 4 0 ++ leBytes 4 0)
    simp only [List.append_assoc] at hn
    simp [RigidBodyDescCodec.decode, hn, getVec3, i32LoopCount,
      readLE_leBytes, readLE_leBytes_nil]
  · simp [RigidBodyDescCodec.encode, Vec3f.encodeLE]
  · have hn := readName_append hp hu
      (leBytes 4 0 ++ leBytes 4 0 ++ leBytes 4 0 ++ leBytes 4 0 ++
        leBytes 4 0 ++ leBytes 4 0 ++ leBytes 4 0)
    simp only [List.append_assoc] at hn
    simp [CameraDescCodec.decode, hn, getVec3, getQuatRaw,
      readLE_leBytes, readLE_leBytes_nil]
  · simp [CameraDescCodec.encode, Vec3f.encodeLE, Quat32.encodeLE]

/-- C10 witness: the amended statement at the one-byte name "A" with
12 bytes of padding for the MarkerSet and MarkerSetDesc cases. -/
theorem c10_terminator_and_encoders_witness :
    MarkerSetCodec.decode
      ([65] ++ 0 :: (leBytes 4 0 ++ List.replicate 12 0)) =
      .ok { name := [65] ++ [0], marker_count := 0, positions := [] }
        (List.replicate 12 0) ∧
    MarkerSetCodec.encode
      { name := [65] ++ [0], marker_count := 0, positions := [] } =
      [65] ++ [0] ++ [0] ++ leBytes 4 0 ∧
    CameraDescCodec.encode
      { name := [65] ++ [0]
        pos := { x := 0, y := 0, z := 0 }
        rot := { x := 0, y := 0, z := 0, w := 0 } } =
      [65] ++ 0 :: (leBytes 4 0 ++ leBytes 4 0 ++ leBytes 4 0 ++
        leBytes 4 0 ++ leBytes 4 0 ++ leBytes 4 0 ++ leBytes 4 0) :=
  ⟨(c10_terminator_and_encoders [65] (by decide) (by decide)).1 _ (by decide),
   (c10_terminator_and_encoders [65] (by decide) (by decide)).2.1,
   (c10_terminator_and_encoders [65] (by decide) (by decide)).2.2.2.2.2.2.2⟩
